import Mathlib

/-!
# fwtool: command dispatcher and boot-flag leaves

A shallow embedding of `recovery/updater/fwtool.c`.

* C strings are Lean strings, one `Char` per C `char`; `s + n` is `str_at s n`.
* Pointers (`void *spi`, the result of `flash_open`) are natural numbers, `0` being `NULL`.
* A sentinel-terminated `struct command[]` is the list of its entries before the sentinel.
* `argc` is the length of `argv`; a handler called as `handler(argc - idx, argv + idx)`
  receives the list `argv.drop idx`.
* Two names of the source are reserved words of Lean: the function `run_cmd` is `runCmd`
  and its parameter `prefix` is `pfx`.
* The file-scope variables `spi`, `ec` and everything outside the program (flash driver,
  vboot library, update code, the two output streams) live in `World`: the functions of the
  other compilation units are the fields of `Env`, acting on a hidden state of arbitrary
  type `X`, and every call to one of them, and every line printed, is appended to
  `World.trace`.
-/

namespace Fwtool

/-! ## Constants of `<errno.h>` -/

def ENOENT : Int := 2
def ENODEV : Int := 19
def EINVAL : Int := 22

/-- The `PRIx64` of `<inttypes.h>` on an LP64 target. -/
def PRIx64 : String := "lx"

/-! ## Observable events -/

/-- A variadic argument of `printf`. -/
inductive Arg where
  | str (s : String)
  | num (n : Int)
  | chr (c : Char)
  | ptr (p : Option String)
  deriving DecidableEq, Repr

/-- The type tag of an edify `Value` (`edify/expr.h`). -/
inductive ValueType where
  | VAL_STRING
  | VAL_BLOB
  deriving DecidableEq, Repr

/-- The edify `Value` struct: a type tag and a data pointer. -/
structure Value where
  type : ValueType
  data : String
  deriving DecidableEq, Repr

/-- One entry of the trace: a line written to a stream, or a call that leaves this file. -/
inductive Event where
  | stdout (fmt : String) (args : List Arg)
  | stderr (fmt : String) (args : List Arg)
  | flash_open (name : String)
  | flash_close (dev : Nat)
  | flash_get_fmap (dev : Nat)
  | fmap_read_section (dev : Nat) (name : String)
  | fdt_read_string (key : String)
  | vboot_get_mainfw_act
  | update_fw (mainv ecv : Value) (force : Int)
  | vbnv_usage (dir : Int)
  | vbnv_get_flag (dev : Nat) (name : String)
  | vbnv_set_flag (dev : Nat) (name : String) (val : Nat)
  | free (p : Option String)
  deriving DecidableEq, Repr

/-! ## The world outside `fwtool.c` -/

/-- One `struct fmap_area`. -/
structure FmapArea where
  name : String
  offset : Nat
  size : Nat
  flags : Nat
  deriving DecidableEq, Repr

/-- The `struct fmap` header with its `nareas` areas. -/
structure Fmap where
  name : String
  ver_major : Nat
  ver_minor : Nat
  base : Nat
  size : Nat
  areas : List FmapArea
  deriving DecidableEq, Repr

/-- The functions and constants that `fwtool.c` takes from its headers
(`flash_device.h`, `fmap.h`, `update_fw.h`, `vboot_interface.h`), none of which is part of
the file. Each function acts on the hidden state `X` of the outside world. -/
structure Env (X : Type) where
  /-- Opens a device; `0` is the null pointer of a failed open. -/
  flash_open : String → X → Nat × X
  flash_close : Nat → X → X
  flash_get_fmap : Nat → X → Option Fmap × X
  /-- Returns the content (its length is `size`) and the offset, or `NULL`. -/
  fmap_read_section : Nat → String → X → Option (List Char × Nat) × X
  fdt_read_string : String → X → Option String × X
  vboot_get_mainfw_act : X → Char × X
  update_fw : Value → Value → Int → X → Int × X
  vbnv_usage : Int → X → X
  /-- Returns the status and the byte stored through the `uint8_t *` argument. -/
  vbnv_get_flag : Nat → String → X → (Int × Nat) × X
  vbnv_set_flag : Nat → String → Nat → X → Int × X
  VB2_FW_RESULT_SUCCESS : Nat
  FMAP_AREA_RO : Nat
  FMAP_AREA_STATIC : Nat

/-- The state the program runs in: the two file-scope handles, the hidden state of the
outside world, and the trace of everything observable done so far. -/
structure World (X : Type) where
  spi : Nat
  ec : Nat
  ext : X
  trace : List Event

variable {X : Type}

/-- Appends one event to the trace. -/
def World.emit (w : World X) (e : Event) : World X :=
  { w with trace := w.trace ++ [e] }

/-- Appends a sequence of events to the trace. -/
def World.emits (w : World X) (es : List Event) : World X :=
  { w with trace := w.trace ++ es }

/-- The state at process start: both handles are zero-initialised statics. -/
def World.init (x : X) : World X :=
  { spi := 0, ec := 0, ext := x, trace := [] }

/-! ## C string helpers -/

/-- The C string `s + n`. Offsets past the terminator, which C leaves undefined, read as the
empty string. -/
def str_at (s : String) (n : Nat) : String :=
  ⟨s.data.drop n⟩

/-- The element `argv[i]`; every use below is guarded by a test of `argc`. -/
def arg (argv : List String) (i : Nat) : String :=
  argv.getD i ""

/-- The `isspace` of the C locale. -/
def isspace (c : Char) : Bool :=
  c == ' ' || c == '\t' || c == '\n' || c == '\x0b' || c == '\x0c' || c == '\r'

/-- The digit loop of `atoi`. -/
def atoi_digits : List Char → Nat → Nat
  | [], acc => acc
  | c :: cs, acc =>
    if c.isDigit then atoi_digits cs (acc * 10 + (c.toNat - '0'.toNat)) else acc

/-- The `atoi` of `<stdlib.h>` on values that fit an `int`: blanks, an optional sign, then
decimal digits. -/
def atoi (s : String) : Int :=
  match s.data.dropWhile isspace with
  | '-' :: r => -(atoi_digits r 0 : Int)
  | '+' :: r => (atoi_digits r 0 : Int)
  | r => (atoi_digits r 0 : Int)

/-- Conversion of an `int` to `uint8_t`. -/
def to_uint8 (i : Int) : Nat :=
  (i % 256).toNat

/-! ## Device handles (`get_spi`, `get_ec`) -/

/-- The `get_spi` of the source: `if (!spi) spi = flash_open("spi", NULL); return spi;`. -/
def get_spi (E : Env X) (w : World X) : Nat × World X :=
  if w.spi = 0 then
    let r := E.flash_open "spi" w.ext
    (r.1, { w with spi := r.1, ext := r.2, trace := w.trace ++ [Event.flash_open "spi"] })
  else
    (w.spi, w)

/-- The `get_ec` of the source: `if (!ec) ec = flash_open("ec", NULL); return ec;`. -/
def get_ec (E : Env X) (w : World X) : Nat × World X :=
  if w.ec = 0 then
    let r := E.flash_open "ec" w.ext
    (r.1, { w with ec := r.1, ext := r.2, trace := w.trace ++ [Event.flash_open "ec"] })
  else
    (w.ec, w)

/-! ## Leaf handlers -/

/-- The `dump_fmap` of the source. -/
def dump_fmap (E : Env X) (dev : Nat) (w : World X) : World X :=
  let r := E.flash_get_fmap dev w.ext
  let w1 : World X := { w with ext := r.2, trace := w.trace ++ [Event.flash_get_fmap dev] }
  match r.1 with
  | none => w1
  | some fmap =>
    (w1.emit (Event.stdout ("FMAP \x27%s\x27 ver %d.%d base 0x%" ++ PRIx64 ++ " size 0x%x\n")
        [Arg.str fmap.name, Arg.num fmap.ver_major, Arg.num fmap.ver_minor,
         Arg.num fmap.base, Arg.num fmap.size])).emits
      (fmap.areas.map fun a =>
        Event.stdout "%16s @%08x size 0x%08x %2s %s\n"
          [Arg.str a.name, Arg.num a.offset, Arg.num a.size,
           Arg.str (if a.flags &&& E.FMAP_AREA_RO ≠ 0 then "RO" else ""),
           Arg.str (if a.flags &&& E.FMAP_AREA_STATIC ≠ 0 then "static" else "")])

/-- The `dump_section` of the source: the last byte of the section is overwritten with the
terminator and the content is printed as a C string. -/
def dump_section (E : Env X) (dev : Nat) (name : String) (w : World X) : World X :=
  let r := E.fmap_read_section dev name w.ext
  let w1 : World X :=
    { w with ext := r.2, trace := w.trace ++ [Event.fmap_read_section dev name] }
  match r.1 with
  | none => w1
  | some (content, offset) =>
    let content1 := content.set (content.length - 1) '\x00'
    w1.emit (Event.stdout "[%s]@%lx=\x7b%s\x7d\n"
      [Arg.str name, Arg.num offset, Arg.str ⟨content1.takeWhile (· ≠ '\x00')⟩])

/-- The `cmd_flash_fmap` of the source. -/
def cmd_flash_fmap (E : Env X) (_argv : List String) (w : World X) : Int × World X :=
  let r := get_spi E w
  if r.1 = 0 then
    (-ENODEV, r.2)
  else
    let w1 := dump_fmap E r.2.spi r.2
    let w2 := dump_section E w1.spi "RO_FRID" w1
    let w3 := dump_section E w2.spi "RW_FWID_A" w2
    let w4 := dump_section E w3.spi "RW_FWID_B" w3
    (0, w4)

/-- One `fdt_read_string` call. -/
def call_fdt_read_string (E : Env X) (key : String) (w : World X) :
    Option String × World X :=
  let r := E.fdt_read_string key w.ext
  (r.1, { w with ext := r.2, trace := w.trace ++ [Event.fdt_read_string key] })

/-- The `cmd_vboot` of the source. -/
def cmd_vboot (E : Env X) (_argv : List String) (w : World X) : Int × World X :=
  let hwid := call_fdt_read_string E "hardware-id" w
  let version := call_fdt_read_string E "firmware-version" hwid.2
  let ro_version := call_fdt_read_string E "readonly-firmware-version" version.2
  let type := call_fdt_read_string E "firmware-type" ro_version.2
  let ec := call_fdt_read_string E "active-ec-firmware" type.2
  let w1 := ec.2.emits
    [Event.stdout "HWID: %s\n" [Arg.ptr hwid.1],
     Event.stdout "Version: %s\n" [Arg.ptr version.1],
     Event.stdout "RO Version: %s\n" [Arg.ptr ro_version.1],
     Event.stdout "FW Type: %s\n" [Arg.ptr type.1],
     Event.stdout "EC: %s\n" [Arg.ptr ec.1]]
  let act := E.vboot_get_mainfw_act w1.ext
  let w2 : World X :=
    { w1 with ext := act.2, trace := w1.trace ++ [Event.vboot_get_mainfw_act] }
  let w3 := w2.emits
    [Event.stdout "FW partition: %c\n" [Arg.chr act.1],
     Event.free hwid.1, Event.free version.1, Event.free ro_version.1,
     Event.free type.1, Event.free ec.1]
  (0, w3)

/-- The `cmd_update` of the source. -/
def cmd_update (E : Env X) (argv : List String) (w : World X) : Int × World X :=
  if argv.length < 3 then
    (-EINVAL, w)
  else
    let w1 := w.emit (Event.stdout "Updating using images main:%s and ec:%s ...\n"
      [Arg.str (arg argv 1), Arg.str (arg argv 2)])
    let mainv : Value := { type := ValueType.VAL_STRING, data := arg argv 1 }
    let ecv : Value := { type := ValueType.VAL_STRING, data := arg argv 2 }
    let r := E.update_fw mainv ecv 1 w1.ext
    let w2 : World X :=
      { w1 with ext := r.2, trace := w1.trace ++ [Event.update_fw mainv ecv 1] }
    let w3 := w2.emit (Event.stdout "Done.\n" [])
    (-ENOENT, w3)

/-- One `vbnv_usage` call. -/
def call_vbnv_usage (E : Env X) (dir : Int) (w : World X) : World X :=
  { w with ext := E.vbnv_usage dir w.ext, trace := w.trace ++ [Event.vbnv_usage dir] }

/-- One `vbnv_set_flag` call; the returned status comes first. -/
def call_vbnv_set_flag (E : Env X) (dev : Nat) (name : String) (val : Nat) (w : World X) :
    Int × World X :=
  let r := E.vbnv_set_flag dev name val w.ext
  (r.1, { w with ext := r.2, trace := w.trace ++ [Event.vbnv_set_flag dev name val] })

/-- One `vbnv_get_flag` call; the status and the byte read come first. -/
def call_vbnv_get_flag (E : Env X) (dev : Nat) (name : String) (w : World X) :
    (Int × Nat) × World X :=
  let r := E.vbnv_get_flag dev name w.ext
  (r.1, { w with ext := r.2, trace := w.trace ++ [Event.vbnv_get_flag dev name] })

/-- The `cmd_vbnv_read` of the source. -/
def cmd_vbnv_read (E : Env X) (argv : List String) (w : World X) : Int × World X :=
  if argv.length ≠ 2 then
    let w1 := w.emits
      [Event.stdout "Usage: fwtool vbnv read <flag>\n" [],
       Event.stdout "where <flag> is one of the following:\n" []]
    (-EINVAL, call_vbnv_usage E 0 w1)
  else
    let r := get_spi E w
    if r.1 = 0 then
      (-ENODEV, r.2)
    else
      let g := call_vbnv_get_flag E r.2.spi (arg argv 1) r.2
      if g.1.1 = 0 then
        (0, g.2.emit (Event.stdout "%s = %d\n" [Arg.str (arg argv 1), Arg.num (g.1.2 % 256 : Nat)]))
      else
        (0, g.2)

/-- The `cmd_vbnv_write` of the source. -/
def cmd_vbnv_write (E : Env X) (argv : List String) (w : World X) : Int × World X :=
  if argv.length ≠ 3 then
    let w1 := w.emits
      [Event.stdout "Usage: fwtool vbnv write <flag> <val>\n" [],
       Event.stdout "where <flag> is one of the following:\n" []]
    (-EINVAL, call_vbnv_usage E 1 w1)
  else
    let r := get_spi E w
    if r.1 = 0 then
      (-ENODEV, r.2)
    else
      let val := to_uint8 (atoi (arg argv 2))
      let s := call_vbnv_set_flag E r.2.spi (arg argv 1) val r.2
      (0, s.2)

/-- The `cmd_mark_boot` of the source. -/
def cmd_mark_boot (E : Env X) (argv : List String) (w : World X) : Int × World X :=
  if argv.length ≠ 2 then
    (-EINVAL, w.emits
      [Event.stdout "Usage: fwtool mark_boot <status>\n" [],
       Event.stdout "    where status can be:\n" [],
       Event.stdout "    success: This boot was successful.\n" []])
  else
    let r := get_spi E w
    if r.1 = 0 then
      (-ENODEV, r.2)
    else if arg argv 1 = "success" then
      let s1 := call_vbnv_set_flag E r.2.spi "boot_result" E.VB2_FW_RESULT_SUCCESS r.2
      let s2 := call_vbnv_set_flag E s1.2.spi "try_count" 0 s1.2
      (0, s2.2)
    else
      (-EINVAL, r.2.emit (Event.stdout "Invalid arg\n" []))

/-! ## Command tables -/

/-- The `struct command` used by the dispatcher: `name`, `help`, a `handler` function
pointer and a `subcmd` table pointer, either of which may be null. -/
inductive Command (σ : Type) where
  | mk (name : String) (help : String)
      (handler : Option (List String → σ → Int × σ))
      (subcmd : Option (List (Command σ)))

/-- The field `name`. -/
def Command.name {σ : Type} : Command σ → String
  | .mk n _ _ _ => n

/-- The field `help`. -/
def Command.help {σ : Type} : Command σ → String
  | .mk _ h _ _ => h

/-- The field `handler`. -/
def Command.handler {σ : Type} : Command σ → Option (List String → σ → Int × σ)
  | .mk _ _ h _ => h

/-- The field `subcmd`. -/
def Command.subcmd {σ : Type} : Command σ → Option (List (Command σ))
  | .mk _ _ _ s => s

/-- Modelled from the spec: the macro `CMD(n, help)` of `debug_cmd.h`, which is not among
the sources. It builds a leaf: the name is the identifier `n` as a string (a nested leaf is
written with its ancestors in front, `vbnv_read`), the handler is `cmd_n`, no subtable. -/
def CMD {σ : Type} (n : String) (cmd_n : List String → σ → Int × σ) (help : String) :
    Command σ :=
  .mk n help (some cmd_n) none

/-- Modelled from the spec: the macro `SUBCMDS(n, help)` of `debug_cmd.h`, which is not
among the sources. It builds an internal node: the name is the identifier `n` as a string,
the subtable is `subcmds_n`, no handler. -/
def SUBCMDS {σ : Type} (n : String) (subcmds_n : List (Command σ)) (help : String) :
    Command σ :=
  .mk n help none (some subcmds_n)

/-- The table `subcmds_flash`. -/
def subcmds_flash (E : Env X) : List (Command (World X)) :=
  [CMD "flash_fmap" (cmd_flash_fmap E) "Dump FMAP information"]

/-- The table `subcmds_vbnv`. -/
def subcmds_vbnv (E : Env X) : List (Command (World X)) :=
  [CMD "vbnv_read" (cmd_vbnv_read E) "Read flag from NvStorage",
   CMD "vbnv_write" (cmd_vbnv_write E) "Write flag from NvStorage"]

/-- The root table `cmds`. The table `subcmds_ec` is defined in another compilation unit
and is a parameter here. -/
def cmds (E : Env X) (subcmds_ec : List (Command (World X))) : List (Command (World X)) :=
  [SUBCMDS "ec" subcmds_ec "Send commands directly to the EC",
   SUBCMDS "flash" (subcmds_flash E) "Read/Write/Dump flash",
   CMD "update" (cmd_update E) "Update the firmwares",
   CMD "vboot" (cmd_vboot E) "dump VBoot information",
   SUBCMDS "vbnv" (subcmds_vbnv E) "Vboot NvStorage",
   CMD "mark_boot" (cmd_mark_boot E) "Mark boot result"]

/-! ## The dispatcher -/

/-- The lines `print_usage` writes to the error stream: the words `argv[0] .. argv[idx]`,
then one line per table entry, its name shown from offset `pfx`. -/
def usage_lines {σ : Type} (commands : List (Command σ)) (idx pfx : Nat)
    (argv : List String) : List Event :=
  [Event.stderr "Usage: " []]
    ++ (argv.take (idx + 1)).map (fun a => Event.stderr "%s " [Arg.str a])
    ++ [Event.stderr "\n" []]
    ++ commands.map (fun c =>
        Event.stderr "\t\t%-12s: %s\n" [Arg.str (str_at c.name pfx), Arg.str c.help])

/-- The `print_usage` of the source. -/
def print_usage (commands : List (Command (World X))) (idx pfx : Nat)
    (argv : List String) (w : World X) : World X :=
  w.emits (usage_lines commands idx pfx argv)

/-- The test `!strcmp(c->name + prefix, argv[idx])` of the scan loop. -/
def name_matches {σ : Type} (pfx : Nat) (tok : String) (c : Command σ) : Bool :=
  decide (str_at c.name pfx = tok)

/-- The `run_cmd` of the source. The `while (c->name)` loop leaves at the first entry
whose name matches, which is `List.find?`; the three branches taken there are
`if (argc > 1 && c->subcmd)`, `else if (c->handler)` and the final `else`. The result is
`none` where the source calls `print_usage` on a null table (an entry with neither handler
nor subtable). The recursion terminates because `idx` grows towards `argc`. -/
def runCmd (commands : List (Command (World X))) (idx pfx : Nat) (argv : List String)
    (w : World X) : Option (Int × World X) :=
  if argv.length ≤ idx + 1 then
    some (-ENOENT, print_usage commands idx pfx argv w)
  else
    match commands.find? (name_matches pfx (arg argv (idx + 1))) with
    | some c =>
      let nprefx := pfx + c.name.length + 1
      match (if 1 < argv.length then c.subcmd else none) with
      | some sub => runCmd sub (idx + 1) nprefx argv w
      | none =>
        match c.handler with
        | some h => some (h (argv.drop (idx + 1)) w)
        | none =>
          match c.subcmd with
          | some sub => some (-EINVAL, print_usage sub (idx + 1) nprefx argv w)
          | none => none
    | none => some (-ENOENT, print_usage commands idx pfx argv w)
termination_by argv.length - idx
decreasing_by omega

/-- The `main` of the source, run on the outside state `x`. -/
def main (E : Env X) (subcmds_ec : List (Command (World X))) (argv : List String) (x : X) :
    Option (Int × World X) :=
  let w0 := (World.init x).emit (Event.stdout "Firmware debug Tool\n" [])
  match runCmd (cmds E subcmds_ec) 0 0 argv w0 with
  | none => none
  | some (res, w1) =>
    let w2 : World X :=
      if w1.spi ≠ 0 then
        { w1 with ext := E.flash_close w1.spi w1.ext,
                  trace := w1.trace ++ [Event.flash_close w1.spi] }
      else w1
    let w3 : World X :=
      if w2.ec ≠ 0 then
        { w2 with ext := E.flash_close w2.ec w2.ext,
                  trace := w2.trace ++ [Event.flash_close w2.ec] }
      else w2
    some (res, w3)


/-! ## Test fixtures -/

/-- A fake outside world whose hidden state counts the calls made so far. The `n`-th call,
when it is a `flash_open`, returns `open_result n`; every flag access returns `flag_status`;
`VB2_FW_RESULT_SUCCESS` is `1`. -/
def fakeEnv (open_result : Nat → Nat) (flag_status : Int) : Env Nat where
  flash_open := fun _ n => (open_result n, n + 1)
  flash_close := fun _ n => n + 1
  flash_get_fmap := fun _ n => (none, n + 1)
  fmap_read_section := fun _ _ n => (none, n + 1)
  fdt_read_string := fun _ n => (none, n + 1)
  vboot_get_mainfw_act := fun n => ('A', n + 1)
  update_fw := fun _ _ _ n => (0, n + 1)
  vbnv_usage := fun _ n => n + 1
  vbnv_get_flag := fun _ _ n => ((flag_status, 0), n + 1)
  vbnv_set_flag := fun _ _ _ n => (flag_status, n + 1)
  VB2_FW_RESULT_SUCCESS := 1
  FMAP_AREA_RO := 4
  FMAP_AREA_STATIC := 1

/-- The flag writes of a trace, in order, as `(name, value)` pairs. -/
def flag_writes : List Event → List (String × Nat)
  | [] => []
  | Event.vbnv_set_flag _ name val :: es => (name, val) :: flag_writes es
  | _ :: es => flag_writes es

/-- The number of `flash_open` calls in a trace. -/
def flash_opens : List Event → Nat
  | [] => 0
  | Event.flash_open _ :: es => flash_opens es + 1
  | _ :: es => flash_opens es

/-- A third table level under `ec usb`, written the way the root table writes its own
nested entries. -/
def subcmds_ec_usb (h : List String → World X → Int × World X) : List (Command (World X)) :=
  [CMD "ec_usb_status" h "Show the port status"]

/-- An `ec` table with one internal node `usb`. -/
def subcmds_ec_nested (h : List String → World X → Int × World X) :
    List (Command (World X)) :=
  [SUBCMDS "ec_usb" (subcmds_ec_usb h) "USB port commands"]

/-! ## Unfolding the dispatcher -/

theorem runCmd_usage_of_exhausted (commands : List (Command (World X))) (idx pfx : Nat)
    (argv : List String) (w : World X) (h : argv.length ≤ idx + 1) :
    runCmd commands idx pfx argv w = some (-ENOENT, print_usage commands idx pfx argv w) := by
  rw [runCmd, if_pos h]

theorem runCmd_usage_of_no_match (commands : List (Command (World X))) (idx pfx : Nat)
    (argv : List String) (w : World X)
    (h : ∀ c ∈ commands, str_at c.name pfx ≠ arg argv (idx + 1)) :
    runCmd commands idx pfx argv w = some (-ENOENT, print_usage commands idx pfx argv w) := by
  rw [runCmd]
  split
  · rfl
  · have hf : commands.find? (name_matches pfx (arg argv (idx + 1))) = none := by
      rw [List.find?_eq_none]
      intro c hc
      simpa [name_matches] using h c hc
    rw [hf]

theorem runCmd_of_leaf (commands : List (Command (World X))) (idx pfx : Nat)
    (argv : List String) (w : World X) (c : Command (World X))
    (h : List String → World X → Int × World X)
    (hlen : idx + 1 < argv.length)
    (hfind : commands.find? (name_matches pfx (arg argv (idx + 1))) = some c)
    (hsub : c.subcmd = none) (hh : c.handler = some h) :
    runCmd commands idx pfx argv w = some (h (argv.drop (idx + 1)) w) := by
  rw [runCmd, if_neg (by omega), hfind]
  simp [hsub, hh]

theorem runCmd_of_node (commands : List (Command (World X))) (idx pfx : Nat)
    (argv : List String) (w : World X) (c : Command (World X))
    (sub : List (Command (World X)))
    (hlen : idx + 1 < argv.length)
    (hfind : commands.find? (name_matches pfx (arg argv (idx + 1))) = some c)
    (hsub : c.subcmd = some sub) :
    runCmd commands idx pfx argv w = runCmd sub (idx + 1) (pfx + c.name.length + 1) argv w := by
  rw [runCmd, if_neg (by omega), hfind]
  have : 1 < argv.length := by omega
  simp [hsub, this]

theorem usage_lines_stderr {σ : Type} (commands : List (Command σ)) (idx pfx : Nat)
    (argv : List String) :
    ∀ e ∈ usage_lines commands idx pfx argv, ∃ fmt args, e = Event.stderr fmt args := by
  intro e he
  simp only [usage_lines, List.mem_append, List.mem_map, List.mem_singleton] at he
  rcases he with ((h | ⟨a, _, h⟩) | h) | ⟨c, _, h⟩
  · exact ⟨_, _, h⟩
  · exact ⟨_, _, h.symm⟩
  · exact ⟨_, _, h⟩
  · exact ⟨_, _, h.symm⟩

/-! ## The dispatcher -/

/-- C1: when `argv` has no token at `idx + 1`, or no entry of the table has a name that
from offset `pfx` equals that token, `runCmd` returns `-ENOENT`, and the world it leaves is
the one it was given with only the usage lines added to the error stream: the handles and
the outside state are untouched, so no handler ran. -/
theorem runCmd_no_command (commands : List (Command (World X))) (idx pfx : Nat)
    (argv : List String) (w : World X)
    (h : argv.length ≤ idx + 1 ∨
      ∀ c ∈ commands, str_at c.name pfx ≠ arg argv (idx + 1)) :
    runCmd commands idx pfx argv w
        = some (-ENOENT,
            { spi := w.spi, ec := w.ec, ext := w.ext,
              trace := w.trace ++ usage_lines commands idx pfx argv })
      ∧ ∀ e ∈ usage_lines commands idx pfx argv, ∃ fmt args, e = Event.stderr fmt args := by
  refine ⟨?_, usage_lines_stderr commands idx pfx argv⟩
  rcases h with h | h
  · exact runCmd_usage_of_exhausted commands idx pfx argv w h
  · exact runCmd_usage_of_no_match commands idx pfx argv w h

theorem runCmd_no_command_witness :
    runCmd (cmds (fakeEnv (fun _ => 7) 0) []) 0 0 ["fwtool", "unknown"] (World.init 0)
        = some (-ENOENT,
            { spi := 0, ec := 0, ext := 0,
              trace := [] ++ usage_lines (cmds (fakeEnv (fun _ => 7) 0) []) 0 0
                ["fwtool", "unknown"] })
      ∧ ∀ e ∈ usage_lines (cmds (fakeEnv (fun _ => 7) 0) []) 0 0 ["fwtool", "unknown"],
          ∃ fmt args, e = Event.stderr fmt args :=
  runCmd_no_command (cmds (fakeEnv (fun _ => 7) 0) []) 0 0 ["fwtool", "unknown"]
    (World.init 0) (Or.inr (by
      intro c hc
      simp only [cmds, List.mem_cons, List.mem_singleton, List.not_mem_nil, or_false] at hc
      rcases hc with h | h | h | h | h | h <;> subst h <;> decide))

/-- C2: when the first table entry whose name matches `argv[idx + 1]` is a leaf (handler
`h`, no subtable), `runCmd` is one application of `h` to the slice `argv.drop (idx + 1)`
on the unchanged world, and what `h` returns (status and world) is returned as is; the
slice has `argc - (idx + 1)` elements. -/
theorem runCmd_leaf_status (commands : List (Command (World X))) (idx pfx : Nat)
    (argv : List String) (w : World X) (c : Command (World X))
    (h : List String → World X → Int × World X)
    (hlen : idx + 1 < argv.length)
    (hfind : commands.find? (name_matches pfx (arg argv (idx + 1))) = some c)
    (hsub : c.subcmd = none) (hh : c.handler = some h) :
    runCmd commands idx pfx argv w = some (h (argv.drop (idx + 1)) w)
      ∧ (argv.drop (idx + 1)).length = argv.length - (idx + 1) :=
  ⟨runCmd_of_leaf commands idx pfx argv w c h hlen hfind hsub hh, List.length_drop _ _⟩

theorem runCmd_leaf_status_witness :
    runCmd (cmds (fakeEnv (fun _ => 7) 0) []) 0 0 ["fwtool", "update", "a", "b"]
          (World.init 0)
        = some (cmd_update (fakeEnv (fun _ => 7) 0)
            (["fwtool", "update", "a", "b"].drop (0 + 1)) (World.init 0))
      ∧ (["fwtool", "update", "a", "b"].drop (0 + 1)).length
        = ["fwtool", "update", "a", "b"].length - (0 + 1) :=
  runCmd_leaf_status (cmds (fakeEnv (fun _ => 7) 0) []) 0 0 ["fwtool", "update", "a", "b"]
    (World.init 0) (CMD "update" (cmd_update (fakeEnv (fun _ => 7) 0)) "Update the firmwares")
    (cmd_update (fakeEnv (fun _ => 7) 0)) (by decide) rfl rfl rfl

theorem runCmd_vbnv_read_eq (E : Env X) (subcmds_ec : List (Command (World X)))
    (prog x : String) (rest : List String) (w : World X) :
    runCmd (cmds E subcmds_ec) 0 0 (prog :: "vbnv" :: "read" :: x :: rest) w
      = some (cmd_vbnv_read E ("read" :: x :: rest) w) := by
  rw [runCmd_of_node (cmds E subcmds_ec) 0 0 (prog :: "vbnv" :: "read" :: x :: rest) w
    (SUBCMDS "vbnv" (subcmds_vbnv E) "Vboot NvStorage") (subcmds_vbnv E) (by simp) rfl rfl]
  exact runCmd_of_leaf (subcmds_vbnv E) 1 5 (prog :: "vbnv" :: "read" :: x :: rest) w
    (CMD "vbnv_read" (cmd_vbnv_read E) "Read flag from NvStorage") (cmd_vbnv_read E)
    (by simp) rfl rfl rfl

/-- C3: on `[prog, "vbnv", "read", x, ...]` the root table resolves `vbnv` and then `read`
(matched against `vbnv_read` from offset 5), and the run is one application of
`cmd_vbnv_read`, to the slice left after two tokens, `["read", x, ...]`, whose first
argument `argv[1]` is `x`. -/
theorem runCmd_vbnv_read_path (E : Env X) (subcmds_ec : List (Command (World X)))
    (prog x : String) (rest : List String) (w : World X) :
    runCmd (cmds E subcmds_ec) 0 0 (prog :: "vbnv" :: "read" :: x :: rest) w
        = some (cmd_vbnv_read E ((prog :: "vbnv" :: "read" :: x :: rest).drop 2) w)
      ∧ (prog :: "vbnv" :: "read" :: x :: rest).drop 2 = "read" :: x :: rest
      ∧ arg ((prog :: "vbnv" :: "read" :: x :: rest).drop 2) 1 = x
      ∧ str_at "vbnv_read" ("vbnv".length + 1) = "read" :=
  ⟨runCmd_vbnv_read_eq E subcmds_ec prog x rest w, rfl, rfl, by decide⟩


/-- The root table on a first token that is none of its six names: `-ENOENT` and the root
usage, whatever the `ec` table holds. -/
theorem runCmd_root_unknown_token (E : Env X) (subcmds_ec : List (Command (World X)))
    (prog tok : String) (rest : List String) (w : World X)
    (htok : tok ∉ ["ec", "flash", "update", "vboot", "vbnv", "mark_boot"]) :
    runCmd (cmds E subcmds_ec) 0 0 (prog :: tok :: rest) w
      = some (-ENOENT, print_usage (cmds E subcmds_ec) 0 0 (prog :: tok :: rest) w) := by
  apply runCmd_usage_of_no_match
  intro c hc heq
  apply htok
  have ht : arg (prog :: tok :: rest) (0 + 1) = tok := rfl
  rw [ht] at heq
  simp only [cmds, List.mem_cons, List.mem_singleton, List.not_mem_nil, or_false] at hc
  rcases hc with h | h | h | h | h | h <;> subst h <;> rw [← heq] <;>
    simp [str_at, SUBCMDS, CMD, Command.name]

/-! ## Device handles -/

theorem get_spi_spi (E : Env X) (w : World X) : (get_spi E w).2.spi = (get_spi E w).1 := by
  unfold get_spi
  split <;> rfl

theorem get_spi_of_open (E : Env X) (w : World X) (h : w.spi ≠ 0) : get_spi E w = (w.spi, w) := by
  unfold get_spi
  rw [if_neg h]

/-- C6, counterexample: with an open that fails the first time and succeeds the second,
two calls of `get_spi` return different handles (`0`, then `7`) and make two `flash_open`
calls. -/
theorem get_spi_twice_failed_open :
    (get_spi (fakeEnv (fun n => if n = 0 then 0 else 7) 0) (World.init 0)).1 = 0
      ∧ (get_spi (fakeEnv (fun n => if n = 0 then 0 else 7) 0)
          (get_spi (fakeEnv (fun n => if n = 0 then 0 else 7) 0) (World.init 0)).2).1 = 7
      ∧ flash_opens (get_spi (fakeEnv (fun n => if n = 0 then 0 else 7) 0)
          (get_spi (fakeEnv (fun n => if n = 0 then 0 else 7) 0) (World.init 0)).2).2.trace
        = 2 := by
  decide

theorem flash_opens_append_open (t : List Event) (name : String) :
    flash_opens (t ++ [Event.flash_open name]) = flash_opens t + 1 := by
  induction t with
  | nil => rfl
  | cons e es ih => cases e <;> simp [flash_opens, ih]

theorem get_spi_of_closed (E : Env X) (w : World X) (h : w.spi = 0) :
    get_spi E w = ((E.flash_open "spi" w.ext).1,
      { spi := (E.flash_open "spi" w.ext).1, ec := w.ec, ext := (E.flash_open "spi" w.ext).2,
        trace := w.trace ++ [Event.flash_open "spi"] }) := by
  unfold get_spi
  rw [if_pos h]

/-- C6, amended: from a state in which the handle is not yet open, two calls of `get_spi`
behave as follows. If the underlying `flash_open` succeeds, both return the same non-null
handle, the one `flash_open` gave, and the trace grows by exactly one `flash_open "spi"`.
If the underlying `flash_open` fails, the first call returns null and the second call
opens again: it returns what a second `flash_open`, run on the state the first one left,
gives, and the trace grows by two `flash_open "spi"`. -/
theorem get_spi_twice_open_calls (E : Env X) (w : World X) (hnew : w.spi = 0) :
    ((E.flash_open "spi" w.ext).1 ≠ 0 →
      (get_spi E w).1 = (E.flash_open "spi" w.ext).1
        ∧ (get_spi E (get_spi E w).2).1 = (get_spi E w).1
        ∧ (get_spi E (get_spi E w).2).2.trace = w.trace ++ [Event.flash_open "spi"]
        ∧ flash_opens (get_spi E (get_spi E w).2).2.trace = flash_opens w.trace + 1)
      ∧ ((E.flash_open "spi" w.ext).1 = 0 →
        (get_spi E w).1 = 0
          ∧ (get_spi E (get_spi E w).2).1
            = (E.flash_open "spi" (E.flash_open "spi" w.ext).2).1
          ∧ (get_spi E (get_spi E w).2).2.trace
            = w.trace ++ [Event.flash_open "spi", Event.flash_open "spi"]
          ∧ flash_opens (get_spi E (get_spi E w).2).2.trace = flash_opens w.trace + 2) := by
  have h1 := get_spi_of_closed E w hnew
  constructor
  · intro hopen
    have h2 : get_spi E (get_spi E w).2 = ((get_spi E w).1, (get_spi E w).2) := by
      have := get_spi_of_open E (get_spi E w).2 (by rw [get_spi_spi, h1]; exact hopen)
      rw [this, get_spi_spi]
    refine ⟨by rw [h1], by rw [h2], by rw [h2, h1], ?_⟩
    rw [h2, h1]
    exact flash_opens_append_open w.trace "spi"
  · intro hfail
    have h2 := get_spi_of_closed E (get_spi E w).2 (by rw [get_spi_spi, h1]; exact hfail)
    rw [h1] at h2
    refine ⟨by rw [h1]; exact hfail, by rw [h1, h2], ?_, ?_⟩
    · rw [h1, h2]
      simp
    · rw [h1, h2]
      show flash_opens ((w.trace ++ [Event.flash_open "spi"]) ++ [Event.flash_open "spi"]) = _
      rw [flash_opens_append_open, flash_opens_append_open]

theorem get_spi_twice_open_calls_witness :
    ((get_spi (fakeEnv (fun _ => 7) 0) (World.init 0)).1
        = ((fakeEnv (fun _ => 7) 0).flash_open "spi" (World.init 0).ext).1
      ∧ (get_spi (fakeEnv (fun _ => 7) 0) (get_spi (fakeEnv (fun _ => 7) 0) (World.init 0)).2).1
        = (get_spi (fakeEnv (fun _ => 7) 0) (World.init 0)).1
      ∧ (get_spi (fakeEnv (fun _ => 7) 0)
          (get_spi (fakeEnv (fun _ => 7) 0) (World.init 0)).2).2.trace
        = (World.init 0).trace ++ [Event.flash_open "spi"]
      ∧ flash_opens (get_spi (fakeEnv (fun _ => 7) 0)
          (get_spi (fakeEnv (fun _ => 7) 0) (World.init 0)).2).2.trace
        = flash_opens (World.init (0 : Nat)).trace + 1)
      ∧ ((get_spi (fakeEnv (fun _ => 0) 0) (World.init 0)).1 = 0
        ∧ (get_spi (fakeEnv (fun _ => 0) 0) (get_spi (fakeEnv (fun _ => 0) 0) (World.init 0)).2).1
          = ((fakeEnv (fun _ => 0) 0).flash_open "spi"
              ((fakeEnv (fun _ => 0) 0).flash_open "spi" (World.init 0).ext).2).1
        ∧ (get_spi (fakeEnv (fun _ => 0) 0)
            (get_spi (fakeEnv (fun _ => 0) 0) (World.init 0)).2).2.trace
          = (World.init 0).trace ++ [Event.flash_open "spi", Event.flash_open "spi"]
        ∧ flash_opens (get_spi (fakeEnv (fun _ => 0) 0)
            (get_spi (fakeEnv (fun _ => 0) 0) (World.init 0)).2).2.trace
          = flash_opens (World.init (0 : Nat)).trace + 2) :=
  ⟨(get_spi_twice_open_calls (fakeEnv (fun _ => 7) 0) (World.init 0) rfl).1 (by decide),
   (get_spi_twice_open_calls (fakeEnv (fun _ => 0) 0) (World.init 0) rfl).2 (by decide)⟩

/-! ## Leaf handlers -/

/-- C9: with two image arguments after the command word, `cmd_update` prints the banner,
calls `update_fw` once on those two images as string values with force flag `1`, prints
`Done.`, and returns `-ENOENT`, which is not `0`; what `update_fw` returns is not looked
at. -/
theorem cmd_update_status (E : Env X) (a0 mainImg ecImg : String) (rest : List String)
    (w : World X) :
    cmd_update E (a0 :: mainImg :: ecImg :: rest) w
        = (-ENOENT,
            { spi := w.spi, ec := w.ec,
              ext := (E.update_fw ⟨ValueType.VAL_STRING, mainImg⟩
                ⟨ValueType.VAL_STRING, ecImg⟩ 1 w.ext).2,
              trace := w.trace ++
                [Event.stdout "Updating using images main:%s and ec:%s ...\n"
                   [Arg.str mainImg, Arg.str ecImg],
                 Event.update_fw ⟨ValueType.VAL_STRING, mainImg⟩
                   ⟨ValueType.VAL_STRING, ecImg⟩ 1,
                 Event.stdout "Done.\n" []] })
      ∧ (cmd_update E (a0 :: mainImg :: ecImg :: rest) w).1 = -2
      ∧ (cmd_update E (a0 :: mainImg :: ecImg :: rest) w).1 ≠ 0 := by
  have h : cmd_update E (a0 :: mainImg :: ecImg :: rest) w
        = (-ENOENT,
            { spi := w.spi, ec := w.ec,
              ext := (E.update_fw ⟨ValueType.VAL_STRING, mainImg⟩
                ⟨ValueType.VAL_STRING, ecImg⟩ 1 w.ext).2,
              trace := w.trace ++
                [Event.stdout "Updating using images main:%s and ec:%s ...\n"
                   [Arg.str mainImg, Arg.str ecImg],
                 Event.update_fw ⟨ValueType.VAL_STRING, mainImg⟩
                   ⟨ValueType.VAL_STRING, ecImg⟩ 1,
                 Event.stdout "Done.\n" []] }) := by
    simp [cmd_update, World.emit, arg]
  refine ⟨h, ?_, ?_⟩ <;> rw [h] <;> simp [ENOENT]

/-- C7: `cmd_vbnv_read` on a slice that is not exactly the command word and one flag name,
and `cmd_vbnv_write` on a slice that is not exactly the command word, a flag name and a
value, return `-EINVAL`; the `spi` handle is left as it was and the trace grows only by the
two usage lines and the `vbnv_usage` call, so there is no `flash_open`, `vbnv_get_flag` or
`vbnv_set_flag`. -/
theorem cmd_vbnv_arity_rejected (E : Env X) (argv : List String) (w : World X) :
    (argv.length ≠ 2 →
      (cmd_vbnv_read E argv w).1 = -EINVAL
        ∧ (cmd_vbnv_read E argv w).2.spi = w.spi
        ∧ (cmd_vbnv_read E argv w).2.trace = w.trace ++
            [Event.stdout "Usage: fwtool vbnv read <flag>\n" [],
             Event.stdout "where <flag> is one of the following:\n" [],
             Event.vbnv_usage 0])
      ∧ (argv.length ≠ 3 →
        (cmd_vbnv_write E argv w).1 = -EINVAL
          ∧ (cmd_vbnv_write E argv w).2.spi = w.spi
          ∧ (cmd_vbnv_write E argv w).2.trace = w.trace ++
              [Event.stdout "Usage: fwtool vbnv write <flag> <val>\n" [],
               Event.stdout "where <flag> is one of the following:\n" [],
               Event.vbnv_usage 1]) := by
  constructor
  · intro h
    simp [cmd_vbnv_read, h, call_vbnv_usage, World.emits]
  · intro h
    simp [cmd_vbnv_write, h, call_vbnv_usage, World.emits]

theorem cmd_vbnv_arity_rejected_witness :
    (cmd_vbnv_write (fakeEnv (fun _ => 7) 0) ["write", "foo"] (World.init 0)).1 = -EINVAL
      ∧ (cmd_vbnv_write (fakeEnv (fun _ => 7) 0) ["write", "foo"] (World.init 0)).2.spi
        = (World.init (0 : Nat)).spi
      ∧ (cmd_vbnv_write (fakeEnv (fun _ => 7) 0) ["write", "foo"] (World.init 0)).2.trace
        = (World.init (0 : Nat)).trace ++
            [Event.stdout "Usage: fwtool vbnv write <flag> <val>\n" [],
             Event.stdout "where <flag> is one of the following:\n" [],
             Event.vbnv_usage 1] :=
  (cmd_vbnv_arity_rejected (fakeEnv (fun _ => 7) 0) ["write", "foo"] (World.init 0)).2
    (by decide)

/-- The word `write` under `vbnv` reaches `cmd_vbnv_write` with the slice starting at
`write`. -/
theorem runCmd_vbnv_write_eq (E : Env X) (subcmds_ec : List (Command (World X)))
    (prog : String) (rest : List String) (w : World X) :
    runCmd (cmds E subcmds_ec) 0 0 (prog :: "vbnv" :: "write" :: rest) w
      = some (cmd_vbnv_write E ("write" :: rest) w) := by
  rw [runCmd_of_node (cmds E subcmds_ec) 0 0 (prog :: "vbnv" :: "write" :: rest) w
    (SUBCMDS "vbnv" (subcmds_vbnv E) "Vboot NvStorage") (subcmds_vbnv E) (by simp) rfl rfl]
  exact runCmd_of_leaf (subcmds_vbnv E) 1 5 (prog :: "vbnv" :: "write" :: rest) w
    (CMD "vbnv_write" (cmd_vbnv_write E) "Write flag from NvStorage") (cmd_vbnv_write E)
    (by simp) rfl rfl rfl

/-- End to end, `fwtool vbnv write foo` exits with `-EINVAL` after the banner, the two
usage lines and the flag listing; no device is opened, so none is closed. -/
theorem main_vbnv_write_missing_value (E : Env X) (subcmds_ec : List (Command (World X)))
    (x : X) :
    main E subcmds_ec ["fwtool", "vbnv", "write", "foo"] x
      = some (-EINVAL,
          { spi := 0, ec := 0, ext := E.vbnv_usage 1 x,
            trace :=
              [Event.stdout "Firmware debug Tool\n" [],
               Event.stdout "Usage: fwtool vbnv write <flag> <val>\n" [],
               Event.stdout "where <flag> is one of the following:\n" [],
               Event.vbnv_usage 1] }) := by
  simp [main, runCmd_vbnv_write_eq, cmd_vbnv_write, call_vbnv_usage, World.emits,
    World.emit, World.init]


/-- What `cmd_mark_boot` does on `[word, "success"]` once the device is open: both flag
writes on the handle, in order, and status `0`; the statuses of the writes are unused. -/
theorem cmd_mark_boot_success_eq (E : Env X) (a0 : String) (w : World X)
    (hopen : (get_spi E w).1 ≠ 0) :
    cmd_mark_boot E [a0, "success"] w
      = (0,
          { spi := (get_spi E w).1, ec := (get_spi E w).2.ec,
            ext := (E.vbnv_set_flag (get_spi E w).1 "try_count" 0
              (E.vbnv_set_flag (get_spi E w).1 "boot_result" E.VB2_FW_RESULT_SUCCESS
                (get_spi E w).2.ext).2).2,
            trace := (get_spi E w).2.trace ++
              [Event.vbnv_set_flag (get_spi E w).1 "boot_result" E.VB2_FW_RESULT_SUCCESS,
               Event.vbnv_set_flag (get_spi E w).1 "try_count" 0] }) := by
  simp [cmd_mark_boot, hopen, arg, call_vbnv_set_flag, get_spi_spi]

/-- C5, counterexample: with a flag store whose every write fails with status `-5`, and a
device that opens, `mark_boot success` still issues the second write and returns `0`. -/
theorem cmd_mark_boot_first_write_fails :
    ((fakeEnv (fun _ => 7) (-5)).vbnv_set_flag 7 "boot_result" 1 1).1 = -5
      ∧ (cmd_mark_boot (fakeEnv (fun _ => 7) (-5)) ["mark_boot", "success"] (World.init 0)).1
        = 0
      ∧ flag_writes
          (cmd_mark_boot (fakeEnv (fun _ => 7) (-5)) ["mark_boot", "success"]
            (World.init 0)).2.trace
        = [("boot_result", 1), ("try_count", 0)] := by
  decide

/-- C5, amended: in `mark_boot success` with the device open, the write of `boot_result`
and the write of `try_count` are both issued, in that order, whatever status the first
write returns, and the status of the operation is `0`. -/
theorem cmd_mark_boot_writes_both (E : Env X) (a0 : String) (w : World X)
    (hopen : (get_spi E w).1 ≠ 0) :
    (cmd_mark_boot E [a0, "success"] w).1 = 0
      ∧ (cmd_mark_boot E [a0, "success"] w).2.trace
        = (get_spi E w).2.trace ++
            [Event.vbnv_set_flag (get_spi E w).1 "boot_result" E.VB2_FW_RESULT_SUCCESS,
             Event.vbnv_set_flag (get_spi E w).1 "try_count" 0] := by
  rw [cmd_mark_boot_success_eq E a0 w hopen]
  exact ⟨rfl, rfl⟩

theorem cmd_mark_boot_writes_both_witness :
    (cmd_mark_boot (fakeEnv (fun _ => 7) (-5)) ["mark_boot", "success"] (World.init 0)).1 = 0
      ∧ (cmd_mark_boot (fakeEnv (fun _ => 7) (-5)) ["mark_boot", "success"]
          (World.init 0)).2.trace
        = (get_spi (fakeEnv (fun _ => 7) (-5)) (World.init 0)).2.trace ++
            [Event.vbnv_set_flag (get_spi (fakeEnv (fun _ => 7) (-5)) (World.init 0)).1
               "boot_result" (fakeEnv (fun _ => 7) (-5)).VB2_FW_RESULT_SUCCESS,
             Event.vbnv_set_flag (get_spi (fakeEnv (fun _ => 7) (-5)) (World.init 0)).1
               "try_count" 0] :=
  cmd_mark_boot_writes_both (fakeEnv (fun _ => 7) (-5)) "mark_boot" (World.init 0)
    (by decide)

/-- The word `mark_boot` reaches `cmd_mark_boot` with the slice starting at it. -/
theorem runCmd_mark_boot_eq (E : Env X) (subcmds_ec : List (Command (World X)))
    (prog : String) (rest : List String) (w : World X) :
    runCmd (cmds E subcmds_ec) 0 0 (prog :: "mark_boot" :: rest) w
      = some (cmd_mark_boot E ("mark_boot" :: rest) w) :=
  runCmd_of_leaf (cmds E subcmds_ec) 0 0 (prog :: "mark_boot" :: rest) w
    (CMD "mark_boot" (cmd_mark_boot E) "Mark boot result") (cmd_mark_boot E)
    (by simp) rfl rfl rfl

/-- C4: when `flash_open "spi"` succeeds, `fwtool mark_boot success` exits with status `0`
and its whole trace is: the banner, the open, the write of `boot_result` with
`VB2_FW_RESULT_SUCCESS`, the write of `try_count` with `0`, the close. The flag writes are
exactly those two, in that order. -/
theorem main_mark_boot_success (E : Env X) (subcmds_ec : List (Command (World X))) (x : X)
    (hopen : (E.flash_open "spi" x).1 ≠ 0) :
    ∃ w : World X,
      main E subcmds_ec ["fwtool", "mark_boot", "success"] x = some (0, w)
        ∧ w.trace =
            [Event.stdout "Firmware debug Tool\n" [],
             Event.flash_open "spi",
             Event.vbnv_set_flag (E.flash_open "spi" x).1 "boot_result"
               E.VB2_FW_RESULT_SUCCESS,
             Event.vbnv_set_flag (E.flash_open "spi" x).1 "try_count" 0,
             Event.flash_close (E.flash_open "spi" x).1]
        ∧ flag_writes w.trace
          = [("boot_result", E.VB2_FW_RESULT_SUCCESS), ("try_count", 0)] := by
  have hg : get_spi E ((World.init x).emit (Event.stdout "Firmware debug Tool\n" []))
      = ((E.flash_open "spi" x).1,
          { spi := (E.flash_open "spi" x).1, ec := 0, ext := (E.flash_open "spi" x).2,
            trace := [Event.stdout "Firmware debug Tool\n" [], Event.flash_open "spi"] }) := by
    simp [get_spi, World.init, World.emit]
  have hm := cmd_mark_boot_success_eq E "mark_boot"
    ((World.init x).emit (Event.stdout "Firmware debug Tool\n" [])) (by rw [hg]; exact hopen)
  rw [hg] at hm
  simp only [main, runCmd_mark_boot_eq, hm]
  simp [hopen, flag_writes]

theorem main_mark_boot_success_witness :
    ∃ w : World Nat,
      main (fakeEnv (fun _ => 7) 0) [] ["fwtool", "mark_boot", "success"] 0 = some (0, w)
        ∧ w.trace =
            [Event.stdout "Firmware debug Tool\n" [],
             Event.flash_open "spi",
             Event.vbnv_set_flag ((fakeEnv (fun _ => 7) 0).flash_open "spi" 0).1 "boot_result"
               (fakeEnv (fun _ => 7) 0).VB2_FW_RESULT_SUCCESS,
             Event.vbnv_set_flag ((fakeEnv (fun _ => 7) 0).flash_open "spi" 0).1 "try_count" 0,
             Event.flash_close ((fakeEnv (fun _ => 7) 0).flash_open "spi" 0).1]
        ∧ flag_writes w.trace
          = [("boot_result", (fakeEnv (fun _ => 7) 0).VB2_FW_RESULT_SUCCESS),
             ("try_count", 0)] :=
  main_mark_boot_success (fakeEnv (fun _ => 7) 0) [] 0 (by decide)

/-- C8, counterexample: the device opens and `vbnv_get_flag` fails with status `-5` on the
name `nosuchflag`; `vbnv read nosuchflag` returns `0`. -/
theorem cmd_vbnv_read_failed_read_status :
    (get_spi (fakeEnv (fun _ => 7) (-5)) (World.init 0)).1 = 7
      ∧ ((fakeEnv (fun _ => 7) (-5)).vbnv_get_flag 7 "nosuchflag" 1).1.1 = -5
      ∧ (cmd_vbnv_read (fakeEnv (fun _ => 7) (-5)) ["read", "nosuchflag"] (World.init 0)).1
        = 0 := by
  decide

/-- C8, amended: `vbnv read <flag>` with exactly one flag name and the device open makes
one `vbnv_get_flag` call and returns `0` whether or not that call fails; the value line is
printed exactly when the call returned `0`. -/
theorem cmd_vbnv_read_returns_zero (E : Env X) (a0 flag : String) (w : World X)
    (hopen : (get_spi E w).1 ≠ 0) :
    (cmd_vbnv_read E [a0, flag] w).1 = 0
      ∧ (cmd_vbnv_read E [a0, flag] w).2.trace
        = (get_spi E w).2.trace ++ [Event.vbnv_get_flag (get_spi E w).1 flag] ++
            (if (E.vbnv_get_flag (get_spi E w).1 flag (get_spi E w).2.ext).1.1 = 0 then
              [Event.stdout "%s = %d\n"
                [Arg.str flag,
                 Arg.num ((E.vbnv_get_flag (get_spi E w).1 flag
                   (get_spi E w).2.ext).1.2 % 256 : Nat)]]
            else []) := by
  by_cases hg : (E.vbnv_get_flag (get_spi E w).1 flag (get_spi E w).2.ext).1.1 = 0 <;>
    simp [cmd_vbnv_read, hopen, arg, call_vbnv_get_flag, get_spi_spi, hg, World.emit]

theorem cmd_vbnv_read_returns_zero_witness :
    (cmd_vbnv_read (fakeEnv (fun _ => 7) (-5)) ["read", "nosuchflag"] (World.init 0)).1 = 0
      ∧ (cmd_vbnv_read (fakeEnv (fun _ => 7) (-5)) ["read", "nosuchflag"]
          (World.init 0)).2.trace
        = (get_spi (fakeEnv (fun _ => 7) (-5)) (World.init 0)).2.trace ++
            [Event.vbnv_get_flag (get_spi (fakeEnv (fun _ => 7) (-5)) (World.init 0)).1
              "nosuchflag"] ++
            (if ((fakeEnv (fun _ => 7) (-5)).vbnv_get_flag
                  (get_spi (fakeEnv (fun _ => 7) (-5)) (World.init 0)).1 "nosuchflag"
                  (get_spi (fakeEnv (fun _ => 7) (-5)) (World.init 0)).2.ext).1.1 = 0 then
              [Event.stdout "%s = %d\n"
                [Arg.str "nosuchflag",
                 Arg.num (((fakeEnv (fun _ => 7) (-5)).vbnv_get_flag
                   (get_spi (fakeEnv (fun _ => 7) (-5)) (World.init 0)).1 "nosuchflag"
                   (get_spi (fakeEnv (fun _ => 7) (-5)) (World.init 0)).2.ext).1.2 % 256 : Nat)]]
            else []) :=
  cmd_vbnv_read_returns_zero (fakeEnv (fun _ => 7) (-5)) "read" "nosuchflag" (World.init 0)
    (by decide)

/-! ## Nesting depth -/

/-- C10: a table three levels deep, `ec` → `ec_usb` → `ec_usb_status`, on the path
`ec usb status`. The first two words are consumed, then the third table is scanned with
offset `3 + 6 + 1 = 10` where the path matched so far, `ec_usb_`, has 7 characters: the
name is compared from `tus`, the leaf is not reached and the result is `-ENOENT` with the
usage of the third table. -/
theorem runCmd_three_levels_misses_leaf (E : Env X)
    (h : List String → World X → Int × World X) (w : World X) :
    runCmd (cmds E (subcmds_ec_nested h)) 0 0 ["fwtool", "ec", "usb", "status"] w
        = some (-ENOENT,
            print_usage (subcmds_ec_usb h) 2 10 ["fwtool", "ec", "usb", "status"] w)
      ∧ str_at "ec_usb_status" 10 = "tus"
      ∧ str_at "ec_usb_status" ("ec".length + 1 + ("usb".length + 1)) = "status" := by
  refine ⟨?_, by decide, by decide⟩
  calc runCmd (cmds E (subcmds_ec_nested h)) 0 0 ["fwtool", "ec", "usb", "status"] w
      = runCmd (subcmds_ec_nested h) 1 3 ["fwtool", "ec", "usb", "status"] w :=
        runCmd_of_node (cmds E (subcmds_ec_nested h)) 0 0
          ["fwtool", "ec", "usb", "status"] w
          (SUBCMDS "ec" (subcmds_ec_nested h) "Send commands directly to the EC")
          (subcmds_ec_nested h) (by simp) rfl rfl
    _ = runCmd (subcmds_ec_usb h) 2 10 ["fwtool", "ec", "usb", "status"] w :=
        runCmd_of_node (subcmds_ec_nested h) 1 3 ["fwtool", "ec", "usb", "status"] w
          (SUBCMDS "ec_usb" (subcmds_ec_usb h) "USB port commands")
          (subcmds_ec_usb h) (by simp) rfl rfl
    _ = some (-ENOENT,
          print_usage (subcmds_ec_usb h) 2 10 ["fwtool", "ec", "usb", "status"] w) :=
        runCmd_usage_of_no_match (subcmds_ec_usb h) 2 10
          ["fwtool", "ec", "usb", "status"] w
          (by
            intro c hc
            simp only [subcmds_ec_usb, List.mem_singleton] at hc
            subst hc
            show str_at "ec_usb_status" 10 ≠ "status"
            decide)

end Fwtool
